import Mathlib

/-!
Verification of the PR lifecycle core of the auto-pr repository.

The definitions below are a shallow embedding of the Python source:
`auto_pr/platforms/models.py` (data model and derived properties),
`auto_pr/pr_state_machine.py` (lifecycle states, transition table,
state machine, state deriver), `auto_pr/check_monitor.py` (check
summaries, flaky classification, check waiting) and
`auto_pr/review_manager.py` (review summaries and approval decision).
Python lists become `List`, optional fields become `Option`, `bool`
properties become `Bool`-valued functions, and exceptions become
explicit result types.
-/

namespace AutoPR

/-- Pull request states (`PRState` in models.py). -/
inductive PRState
  | OPEN
  | CLOSED
  | MERGED
  | DRAFT
deriving DecidableEq, Repr

/-- The `.value` string of a `PRState` member. -/
def PRState.value : PRState → String
  | .OPEN => "open"
  | .CLOSED => "closed"
  | .MERGED => "merged"
  | .DRAFT => "draft"

/-- CI/CD check statuses (`CheckStatus` in models.py). -/
inductive CheckStatus
  | QUEUED
  | IN_PROGRESS
  | COMPLETED
deriving DecidableEq, Repr

/-- CI/CD check conclusions (`CheckConclusion` in models.py). -/
inductive CheckConclusion
  | SUCCESS
  | FAILURE
  | NEUTRAL
  | CANCELLED
  | SKIPPED
  | TIMED_OUT
  | ACTION_REQUIRED
  | PENDING
deriving DecidableEq, Repr

/-- Review states (`ReviewState` in models.py). -/
inductive ReviewState
  | APPROVED
  | CHANGES_REQUESTED
  | COMMENTED
  | PENDING
  | DISMISSED
deriving DecidableEq, Repr

/-- PR mergeable states (`MergeableState` in models.py). -/
inductive MergeableState
  | MERGEABLE
  | CONFLICTING
  | UNKNOWN
  | BLOCKED
  | BEHIND
  | UNSTABLE
  | CLEAN
  | DIRTY
  | HAS_HOOKS
deriving DecidableEq, Repr

/-- Information about a CI/CD check (`CheckInfo` in models.py). -/
structure CheckInfo where
  name : String
  status : CheckStatus
  conclusion : Option CheckConclusion := none
  url : Option String := none
  started_at : Option String := none
  completed_at : Option String := none
deriving DecidableEq, Repr

/-- Python `CheckInfo.is_pending`: `status != CheckStatus.COMPLETED`. -/
def CheckInfo.is_pending (c : CheckInfo) : Bool :=
  c.status != CheckStatus.COMPLETED

/-- Python `CheckInfo.is_successful`: `conclusion == CheckConclusion.SUCCESS`. -/
def CheckInfo.is_successful (c : CheckInfo) : Bool :=
  c.conclusion == some CheckConclusion.SUCCESS

/-- Python `CheckInfo.is_failed`: `conclusion in (FAILURE, TIMED_OUT, CANCELLED)`. -/
def CheckInfo.is_failed (c : CheckInfo) : Bool :=
  c.conclusion == some CheckConclusion.FAILURE
    || c.conclusion == some CheckConclusion.TIMED_OUT
    || c.conclusion == some CheckConclusion.CANCELLED

/-- Information about a PR review (`ReviewInfo` in models.py). -/
structure ReviewInfo where
  user : String
  state : ReviewState
  body : Option String := none
  submitted_at : Option String := none
deriving DecidableEq, Repr

/-- Python `ReviewInfo.is_approved`: `state == ReviewState.APPROVED`. -/
def ReviewInfo.is_approved (r : ReviewInfo) : Bool :=
  r.state == ReviewState.APPROVED

/-- Python `ReviewInfo.requests_changes`: `state == ReviewState.CHANGES_REQUESTED`. -/
def ReviewInfo.requests_changes (r : ReviewInfo) : Bool :=
  r.state == ReviewState.CHANGES_REQUESTED

/-- Information about a pull request (`PRInfo` in models.py). -/
structure PRInfo where
  number : Int
  title : String
  body : String
  state : PRState
  head_branch : String
  base_branch : String
  url : String
  html_url : Option String := none
  mergeable : Option Bool := none
  mergeable_state : Option MergeableState := none
  draft : Bool := false
  checks : List CheckInfo := []
  reviews : List ReviewInfo := []
  labels : List String := []
  author : Option String := none
  created_at : Option String := none
  updated_at : Option String := none
deriving DecidableEq, Repr

/-- Python `PRInfo.is_open`: `state == PRState.OPEN`. -/
def PRInfo.is_open (pr : PRInfo) : Bool :=
  pr.state == PRState.OPEN

/-- Python `PRInfo.is_merged`: `state == PRState.MERGED`. -/
def PRInfo.is_merged (pr : PRInfo) : Bool :=
  pr.state == PRState.MERGED

/-- Python `PRInfo.is_draft`: `draft or state == PRState.DRAFT`. -/
def PRInfo.is_draft (pr : PRInfo) : Bool :=
  pr.draft || pr.state == PRState.DRAFT

/-- Python `PRInfo.has_conflicts`: `mergeable_state in (CONFLICTING, DIRTY)`. -/
def PRInfo.has_conflicts (pr : PRInfo) : Bool :=
  pr.mergeable_state == some MergeableState.CONFLICTING
    || pr.mergeable_state == some MergeableState.DIRTY

/-- Python `PRInfo.checks_passed`: vacuously true for an empty check list, otherwise
    all COMPLETED checks must have conclusion SUCCESS. -/
def PRInfo.checks_passed (pr : PRInfo) : Bool :=
  if pr.checks.isEmpty then true
  else (pr.checks.filter (fun c => c.status == CheckStatus.COMPLETED)).all
    (fun c => c.is_successful)

/-- Python `PRInfo.checks_pending`: `any(c.is_pending for c in checks)`. -/
def PRInfo.checks_pending (pr : PRInfo) : Bool :=
  pr.checks.any (fun c => c.is_pending)

/-- Python `PRInfo.checks_failed`: `any(c.is_failed for c in checks)`. -/
def PRInfo.checks_failed (pr : PRInfo) : Bool :=
  pr.checks.any (fun c => c.is_failed)

/-- Python `PRInfo.is_approved`: false with no reviews, otherwise some approval
    and no changes requested. -/
def PRInfo.is_approved (pr : PRInfo) : Bool :=
  if pr.reviews.isEmpty then false
  else (pr.reviews.filter (fun r => r.is_approved)).length > 0
    && (pr.reviews.filter (fun r => r.requests_changes)).length == 0

/-- Python `PRInfo.pending_reviewers`: users of reviews with state PENDING. -/
def PRInfo.pending_reviewers (pr : PRInfo) : List String :=
  (pr.reviews.filter (fun r => r.state == ReviewState.PENDING)).map
    (fun r => r.user)

/-- Python `PRInfo.can_merge`: open, not draft, `mergeable is not False`, no
    conflicts, checks passed, no pending checks. -/
def PRInfo.can_merge (pr : PRInfo) : Bool :=
  pr.is_open
    && !pr.is_draft
    && pr.mergeable != some false
    && !pr.has_conflicts
    && pr.checks_passed
    && !pr.checks_pending

/-- Python `PRInfo.get_blocking_reasons`: the list of human-readable blocking
    reasons, built by the same sequence of conditional appends as the
    Python method. -/
def PRInfo.get_blocking_reasons (pr : PRInfo) : List String :=
  (if !pr.is_open then ["PR is " ++ pr.state.value] else [])
    ++ (if pr.is_draft then ["PR is a draft"] else [])
    ++ (if pr.has_conflicts then ["PR has merge conflicts"] else [])
    ++ (if pr.checks_pending then
          ["Checks pending: " ++ String.intercalate ", "
            (((pr.checks.filter (fun c => c.is_pending)).map
              (fun c => c.name)).take 3)]
        else [])
    ++ (if pr.checks_failed then
          ["Checks failed: " ++ String.intercalate ", "
            (((pr.checks.filter (fun c => c.is_failed)).map
              (fun c => c.name)).take 3)]
        else [])
    ++ (if !((pr.reviews.filter (fun r => r.requests_changes)).map
          (fun r => r.user)).isEmpty then
          ["Changes requested by: " ++ String.intercalate ", "
            ((pr.reviews.filter (fun r => r.requests_changes)).map
              (fun r => r.user))]
        else [])

/-- States in the PR lifecycle (`PRLifecycleState` in pr_state_machine.py). -/
inductive PRLifecycleState
  | CREATED
  | OPEN
  | DRAFT
  | CHECKS_RUNNING
  | CHECKS_PASSED
  | CHECKS_FAILED
  | CONFLICT
  | RESOLUTION
  | BLOCKED
  | REVIEW_REQUIRED
  | CHANGES_REQUESTED
  | READY_TO_MERGE
  | MERGED
  | CLOSED
deriving DecidableEq, Repr

/-- A valid state transition (`StateTransition` in pr_state_machine.py). -/
structure StateTransition where
  from_state : PRLifecycleState
  to_state : PRLifecycleState
  trigger : String
  description : String := ""
deriving DecidableEq, Repr

/-- The static transition table `VALID_TRANSITIONS`. -/
def VALID_TRANSITIONS : List StateTransition := [
  ⟨.CREATED, .OPEN, "publish", "PR published"⟩,
  ⟨.CREATED, .DRAFT, "create_draft", "Created as draft"⟩,
  ⟨.DRAFT, .OPEN, "ready_for_review", "Marked ready for review"⟩,
  ⟨.OPEN, .DRAFT, "convert_to_draft", "Converted to draft"⟩,
  ⟨.OPEN, .CHECKS_RUNNING, "checks_started", "CI checks started"⟩,
  ⟨.OPEN, .REVIEW_REQUIRED, "awaiting_review", "Waiting for reviews"⟩,
  ⟨.CHECKS_RUNNING, .CHECKS_PASSED, "checks_pass", "All checks passed"⟩,
  ⟨.CHECKS_RUNNING, .CHECKS_FAILED, "checks_fail", "Checks failed"⟩,
  ⟨.CHECKS_RUNNING, .CONFLICT, "conflict_detected", "Merge conflict detected"⟩,
  ⟨.CHECKS_PASSED, .READY_TO_MERGE, "approved", "Reviews approved"⟩,
  ⟨.CHECKS_PASSED, .REVIEW_REQUIRED, "awaiting_review", "Waiting for reviews"⟩,
  ⟨.CHECKS_PASSED, .CHANGES_REQUESTED, "changes_requested", "Changes requested"⟩,
  ⟨.CHECKS_FAILED, .BLOCKED, "blocked", "Blocked by failing checks"⟩,
  ⟨.CHECKS_FAILED, .CHECKS_RUNNING, "retry", "Checks retriggered"⟩,
  ⟨.CONFLICT, .RESOLUTION, "start_resolution", "Starting conflict resolution"⟩,
  ⟨.RESOLUTION, .CHECKS_RUNNING, "resolution_complete", "Conflicts resolved"⟩,
  ⟨.RESOLUTION, .CONFLICT, "resolution_failed", "Resolution failed"⟩,
  ⟨.REVIEW_REQUIRED, .READY_TO_MERGE, "approved", "Reviews approved"⟩,
  ⟨.REVIEW_REQUIRED, .CHANGES_REQUESTED, "changes_requested", "Changes requested"⟩,
  ⟨.CHANGES_REQUESTED, .REVIEW_REQUIRED, "addressed", "Changes addressed"⟩,
  ⟨.CHANGES_REQUESTED, .CHECKS_RUNNING, "pushed", "New commits pushed"⟩,
  ⟨.BLOCKED, .CHECKS_RUNNING, "unblocked", "Block removed"⟩,
  ⟨.READY_TO_MERGE, .MERGED, "merge", "PR merged"⟩,
  ⟨.READY_TO_MERGE, .CONFLICT, "conflict", "New conflict"⟩,
  ⟨.READY_TO_MERGE, .BLOCKED, "blocked", "Merge blocked"⟩,
  ⟨.OPEN, .CLOSED, "close", "PR closed"⟩,
  ⟨.DRAFT, .CLOSED, "close", "PR closed"⟩,
  ⟨.BLOCKED, .CLOSED, "close", "PR closed"⟩
]

/-- State machine for managing PR lifecycle (`PRStateMachine`). -/
structure PRStateMachine where
  current_state : PRLifecycleState := PRLifecycleState.CREATED
  history : List (PRLifecycleState × String) := []
  pr_number : Option Int := none
deriving DecidableEq, Repr

/-- Python `PRStateMachine.can_transition`: some table entry matches
    (current_state, trigger). -/
def PRStateMachine.can_transition (m : PRStateMachine) (trigger : String) : Bool :=
  VALID_TRANSITIONS.any
    (fun t => t.from_state == m.current_state && t.trigger == trigger)

/-- Python `PRStateMachine.get_valid_triggers`: triggers of table entries whose
    from-state is the current state. -/
def PRStateMachine.get_valid_triggers (m : PRStateMachine) : List String :=
  (VALID_TRANSITIONS.filter (fun t => t.from_state == m.current_state)).map
    (fun t => t.trigger)

/-- Python `PRStateMachine.transition`: finds the first matching table entry; on
    success appends (current_state, trigger) to history and moves to the
    target state; otherwise raises ValueError listing the valid triggers
    and leaves the machine unchanged.  The raised error is modelled as
    `Except.error` carrying the list of valid triggers, paired with the
    (unchanged) machine. -/
def PRStateMachine.transition (m : PRStateMachine) (trigger : String) :
    Except (List String) PRLifecycleState × PRStateMachine :=
  match VALID_TRANSITIONS.find?
      (fun t => t.from_state == m.current_state && t.trigger == trigger) with
  | some t =>
    (Except.ok t.to_state,
      { m with current_state := t.to_state,
               history := m.history ++ [(m.current_state, trigger)] })
  | none => (Except.error (m.get_valid_triggers), m)

/-- Python `PRStateMachine.determine_state`: the lifecycle state deriver, the
    same chain of conditions in the same order as the Python staticmethod. -/
def PRStateMachine.determine_state (pr : PRInfo) : PRLifecycleState :=
  if pr.is_merged then PRLifecycleState.MERGED
  else if !pr.is_open then PRLifecycleState.CLOSED
  else if pr.is_draft then PRLifecycleState.DRAFT
  else if pr.has_conflicts then PRLifecycleState.CONFLICT
  else if pr.checks_pending then PRLifecycleState.CHECKS_RUNNING
  else if pr.checks_failed then PRLifecycleState.CHECKS_FAILED
  else if !(pr.reviews.filter (fun r => r.requests_changes)).isEmpty then
    PRLifecycleState.CHANGES_REQUESTED
  else if !pr.is_approved && !pr.reviews.isEmpty then
    PRLifecycleState.REVIEW_REQUIRED
  else if !(pr.get_blocking_reasons).isEmpty then PRLifecycleState.BLOCKED
  else if pr.can_merge then PRLifecycleState.READY_TO_MERGE
  else if pr.checks_passed then PRLifecycleState.CHECKS_PASSED
  else PRLifecycleState.OPEN

/-- Summary of check statuses (`CheckSummary` in check_monitor.py). -/
structure CheckSummary where
  total : Nat
  passed : Nat
  failed : Nat
  pending : Nat
  skipped : Nat
deriving DecidableEq, Repr

/-- Python `CheckSummary.all_passed`: `failed == 0 and pending == 0`. -/
def CheckSummary.all_passed (s : CheckSummary) : Bool :=
  s.failed == 0 && s.pending == 0

/-- Python `CheckSummary.has_failures`: `failed > 0`. -/
def CheckSummary.has_failures (s : CheckSummary) : Bool :=
  s.failed > 0

/-- Python `CheckSummary.is_complete`: `pending == 0`. -/
def CheckSummary.is_complete (s : CheckSummary) : Bool :=
  s.pending == 0

/-- Python `CheckMonitor.FLAKY_PATTERNS`. -/
def FLAKY_PATTERNS : List String := ["e2e", "integration", "visual", "flaky", "unstable"]

/-- Python substring membership `needle in haystack` on character lists:
    true when `needle` occurs contiguously inside `haystack`. -/
def containsSub (needle : List Char) : List Char → Bool
  | [] => needle.isEmpty
  | c :: rest => (c :: rest).take needle.length == needle || containsSub needle rest

/-- Python `CheckMonitor.is_flaky` on the check name: lowercases the name and
    tests each flaky pattern for substring membership. -/
def flakyName (name : String) : Bool :=
  FLAKY_PATTERNS.any (fun p => containsSub p.toList name.toLower.toList)

/-- Python `CheckMonitor.is_flaky`: the name (case-insensitive) contains one of
    the FLAKY_PATTERNS. -/
def is_flaky (check : CheckInfo) : Bool :=
  flakyName check.name

/-- Python `CheckMonitor.summarize_checks`: counts by conclusion / pending status. -/
def summarize_checks (checks : List CheckInfo) : CheckSummary :=
  { total := checks.length
    passed := checks.countP (fun c => c.conclusion == some CheckConclusion.SUCCESS)
    failed := checks.countP (fun c => c.is_failed)
    pending := checks.countP (fun c => c.is_pending)
    skipped := checks.countP (fun c =>
      c.conclusion == some CheckConclusion.SKIPPED
        || c.conclusion == some CheckConclusion.NEUTRAL) }

/-- Python `CheckMonitor.categorize_failures`: failed checks split into flaky
    and blocking, blocking being those failed checks not in the flaky
    list (Python's `c not in flaky`). -/
def categorize_failures (checks : List CheckInfo) :
    List CheckInfo × List CheckInfo :=
  let failed := checks.filter (fun c => c.is_failed)
  let flaky := failed.filter (fun c => is_flaky c)
  let blocking := failed.filter (fun c => !flaky.contains c)
  (flaky, blocking)

/-- Summary of review status (`ReviewSummary` in review_manager.py). -/
structure ReviewSummary where
  total : Nat
  approved : Nat
  changes_requested : Nat
  commented : Nat
  pending : Nat
  dismissed : Nat
deriving DecidableEq, Repr

/-- Python `ReviewSummary.is_approved`: `approved > 0 and changes_requested == 0`. -/
def ReviewSummary.is_approved (s : ReviewSummary) : Bool :=
  s.approved > 0 && s.changes_requested == 0

/-- Python `ReviewSummary.needs_changes`: `changes_requested > 0`. -/
def ReviewSummary.needs_changes (s : ReviewSummary) : Bool :=
  s.changes_requested > 0

/-- Python `ReviewManager.summarize_reviews`: counts by review state. -/
def summarize_reviews (reviews : List ReviewInfo) : ReviewSummary :=
  { total := reviews.length
    approved := reviews.countP (fun r => r.state == ReviewState.APPROVED)
    changes_requested := reviews.countP (fun r => r.state == ReviewState.CHANGES_REQUESTED)
    commented := reviews.countP (fun r => r.state == ReviewState.COMMENTED)
    pending := reviews.countP (fun r => r.state == ReviewState.PENDING)
    dismissed := reviews.countP (fun r => r.state == ReviewState.DISMISSED) }

/-- Python `ReviewManager.check_approval_status`, on the fetched review list:
    changes requested wins, then the approval quorum, else the count of
    missing approvals.  Returns (approved, status_message) as the Python
    method does. -/
def check_approval_status (reviews : List ReviewInfo)
    (required_approvals : Nat) : Bool × String :=
  let summary := summarize_reviews reviews
  if summary.changes_requested > 0 then
    (false, "Changes requested by: " ++ String.intercalate ", "
      ((reviews.filter (fun r => r.state == ReviewState.CHANGES_REQUESTED)).map
        (fun r => r.user)))
  else if summary.approved ≥ required_approvals then
    (true, "Approved by " ++ toString summary.approved ++ " reviewer(s)")
  else
    (false, "Need " ++ toString (required_approvals - summary.approved)
      ++ " more approval(s)")

/-- Names of the pending checks, as collected in wait_for_pr_checks. -/
def pendingNames (checks : List CheckInfo) : List String :=
  (checks.filter (fun c => c.is_pending)).map (fun c => c.name)

/-- Names of the failed checks, as collected in wait_for_pr_checks. -/
def failedNames (checks : List CheckInfo) : List String :=
  (checks.filter (fun c => c.is_failed)).map (fun c => c.name)

/-- Outcome of one invocation of `wait_for_pr_checks`
    (check_monitor.py): a boolean return, one of the two distinct error
    kinds, or a self-recursive re-invocation. -/
inductive WaitStepResult
  | ok (proceed : Bool)
  | checksPendingError (pending : List String)
  | checksFailedError (failed : List String)
  | recurse
deriving DecidableEq, Repr

/-- One invocation of `wait_for_pr_checks`, after `wait_for_checks` has
    returned its final check snapshot (it returns
    `(summarize_checks checks).all_passed` together with `checks` on
    every path, both on completion and on timeout).  `action` is the
    string chosen by `handle_failed_checks` (user interaction) and
    `retrySucceeds` the outcome of `retry_checks`; the recursive calls
    of the Python function are represented by `.recurse`. -/
def wait_for_pr_checks_step (checks : List CheckInfo) (action : String)
    (retrySucceeds : Bool) : WaitStepResult :=
  let summary := summarize_checks checks
  if summary.all_passed then WaitStepResult.ok true
  else if summary.pending > 0 then
    WaitStepResult.checksPendingError (pendingNames checks)
  else if action == "retry" then
    if retrySucceeds then WaitStepResult.recurse
    else WaitStepResult.checksFailedError (failedNames checks)
  else if action == "ignore" then WaitStepResult.ok true
  else if action == "wait" then WaitStepResult.recurse
  else WaitStepResult.checksFailedError (failedNames checks)

/-! ### Helper lemmas -/

/-- Distinct table entries have distinct (from_state, trigger) keys. -/
lemma table_pairwise_keys :
    VALID_TRANSITIONS.Pairwise
      (fun a b => ¬(a.from_state = b.from_state ∧ a.trigger = b.trigger)) := by
  decide

/-- Two table entries with the same from-state and trigger are equal. -/
lemma table_match_unique {e e' : StateTransition}
    (he : e ∈ VALID_TRANSITIONS) (he' : e' ∈ VALID_TRANSITIONS)
    (h1 : e.from_state = e'.from_state) (h2 : e.trigger = e'.trigger) :
    e = e' := by
  by_contra hne
  have hsymm : Symmetric
      (fun a b : StateTransition =>
        ¬(a.from_state = b.from_state ∧ a.trigger = b.trigger)) := by
    intro a b hab hba
    exact hab ⟨hba.1.symm, hba.2.symm⟩
  exact table_pairwise_keys.forall hsymm he he' hne ⟨h1, h2⟩

/-! ### Theorems for the claims -/

/-- C1: the state deriver respects the fixed priority order: an open,
    unmerged draft PR with a failed check derives DRAFT (draft precedes
    checks-failed), and an open, unmerged, non-draft PR with conflicts
    and a pending check derives CONFLICT (conflict precedes
    checks-running). -/
theorem determine_state_priority_order (pr : PRInfo) :
    (pr.is_merged = false → pr.is_open = true → pr.is_draft = true →
      pr.checks_failed = true →
      PRStateMachine.determine_state pr = PRLifecycleState.DRAFT) ∧
    (pr.is_merged = false → pr.is_open = true → pr.is_draft = false →
      pr.has_conflicts = true → pr.checks_pending = true →
      PRStateMachine.determine_state pr = PRLifecycleState.CONFLICT) := by
  constructor
  · intro h1 h2 h3 h4
    simp [PRStateMachine.determine_state, h1, h2, h3]
  · intro h1 h2 h3 h4 h5
    simp [PRStateMachine.determine_state, h1, h2, h3, h4]

/-- A PR that is simultaneously a draft and has a failing check. -/
def priorityExampleDraft : PRInfo :=
  { number := 1, title := "t", body := "b", state := PRState.OPEN,
    head_branch := "h", base_branch := "m", url := "u", draft := true,
    checks := [{ name := "unit", status := CheckStatus.COMPLETED,
                 conclusion := some CheckConclusion.FAILURE }] }

/-- A PR with merge conflicts and a pending check. -/
def priorityExampleConflict : PRInfo :=
  { number := 2, title := "t", body := "b", state := PRState.OPEN,
    head_branch := "h", base_branch := "m", url := "u",
    mergeable_state := some MergeableState.DIRTY,
    checks := [{ name := "unit", status := CheckStatus.QUEUED }] }

/-- Witness for C1 at the two concrete PRs above. -/
theorem determine_state_priority_order_witness :
    PRStateMachine.determine_state priorityExampleDraft =
      PRLifecycleState.DRAFT ∧
    PRStateMachine.determine_state priorityExampleConflict =
      PRLifecycleState.CONFLICT :=
  ⟨(determine_state_priority_order priorityExampleDraft).1
      (by decide) (by decide) (by decide) (by decide),
   (determine_state_priority_order priorityExampleConflict).2
      (by decide) (by decide) (by decide) (by decide) (by decide)⟩

/-- C6: the transition table contains no ambiguous duplicates: the
    (from_state, trigger) keys of its entries are pairwise distinct. -/
theorem valid_transitions_keys_nodup :
    (VALID_TRANSITIONS.map (fun t => (t.from_state, t.trigger))).Nodup := by
  decide

/-- C7: MERGED and CLOSED are terminal: no table entry leaves them, the
    valid-trigger list of a machine in either state is empty, and every
    transition attempt from either state fails and leaves the machine
    unchanged. -/
theorem merged_closed_terminal :
    VALID_TRANSITIONS.filter
      (fun e => e.from_state == PRLifecycleState.MERGED
        || e.from_state == PRLifecycleState.CLOSED) = [] ∧
    (∀ h p, PRStateMachine.get_valid_triggers
      { current_state := PRLifecycleState.MERGED, history := h,
        pr_number := p } = []) ∧
    (∀ h p, PRStateMachine.get_valid_triggers
      { current_state := PRLifecycleState.CLOSED, history := h,
        pr_number := p } = []) ∧
    (∀ t h p, PRStateMachine.transition
      { current_state := PRLifecycleState.MERGED, history := h,
        pr_number := p } t =
      (Except.error [],
        { current_state := PRLifecycleState.MERGED, history := h,
          pr_number := p })) ∧
    (∀ t h p, PRStateMachine.transition
      { current_state := PRLifecycleState.CLOSED, history := h,
        pr_number := p } t =
      (Except.error [],
        { current_state := PRLifecycleState.CLOSED, history := h,
          pr_number := p })) := by
  exact ⟨by decide, fun h p => rfl, fun h p => rfl,
    fun t h p => rfl, fun t h p => rfl⟩

set_option maxHeartbeats 1000000 in
/-- C10: a PR whose state field is the draft-as-state value derives
    CLOSED (never DRAFT), whatever the draft flag; and a PR deriving
    DRAFT necessarily has state open and the draft flag set. -/
theorem draft_state_derives_closed (pr : PRInfo) :
    (pr.state = PRState.DRAFT →
      PRStateMachine.determine_state pr = PRLifecycleState.CLOSED) ∧
    (PRStateMachine.determine_state pr = PRLifecycleState.DRAFT →
      pr.state = PRState.OPEN ∧ pr.draft = true) := by
  constructor
  · intro h
    simp [PRStateMachine.determine_state, PRInfo.is_merged, PRInfo.is_open, h]
  · intro h
    unfold PRStateMachine.determine_state at h
    split at h <;> try exact PRLifecycleState.noConfusion h
    split at h <;> try exact PRLifecycleState.noConfusion h
    split at h
    case isTrue =>
      rename_i hm ho hd
      simp [PRInfo.is_open] at ho
      refine ⟨ho, ?_⟩
      simpa [PRInfo.is_draft, ho] using hd
    case isFalse =>
      exfalso
      split at h <;> try exact PRLifecycleState.noConfusion h
      split at h <;> try exact PRLifecycleState.noConfusion h
      split at h <;> try exact PRLifecycleState.noConfusion h
      split at h <;> try exact PRLifecycleState.noConfusion h
      split at h <;> try exact PRLifecycleState.noConfusion h
      split at h <;> try exact PRLifecycleState.noConfusion h
      split at h <;> try exact PRLifecycleState.noConfusion h
      split at h <;> exact PRLifecycleState.noConfusion h

/-- A PR whose state field is draft-as-state while the draft flag is unset. -/
def draftStateExample : PRInfo :=
  { number := 3, title := "t", body := "b", state := PRState.DRAFT,
    head_branch := "h", base_branch := "m", url := "u", draft := false }

/-- An open PR with the draft flag set. -/
def draftFlagExample : PRInfo :=
  { number := 4, title := "t", body := "b", state := PRState.OPEN,
    head_branch := "h", base_branch := "m", url := "u", draft := true }

/-- Witness for C10 at two concrete PRs. -/
theorem draft_state_derives_closed_witness :
    PRStateMachine.determine_state draftStateExample =
      PRLifecycleState.CLOSED ∧
    (draftFlagExample.state = PRState.OPEN ∧ draftFlagExample.draft = true) :=
  ⟨(draft_state_derives_closed draftStateExample).1 (by decide),
   (draft_state_derives_closed draftFlagExample).2 (by decide)⟩

set_option maxHeartbeats 1000000 in
/-- C9: the state deriver never returns CREATED, RESOLUTION or BLOCKED:
    its result always lies in the complementary set of eleven lifecycle
    states; in particular the BLOCKED branch is unreachable because every
    blocking reason is already matched by an earlier branch. -/
theorem determine_state_never_created_resolution_blocked (pr : PRInfo) :
    PRStateMachine.determine_state pr ∈
      [PRLifecycleState.MERGED, PRLifecycleState.CLOSED,
       PRLifecycleState.DRAFT, PRLifecycleState.CONFLICT,
       PRLifecycleState.CHECKS_RUNNING, PRLifecycleState.CHECKS_FAILED,
       PRLifecycleState.CHANGES_REQUESTED, PRLifecycleState.REVIEW_REQUIRED,
       PRLifecycleState.READY_TO_MERGE, PRLifecycleState.CHECKS_PASSED,
       PRLifecycleState.OPEN] := by
  unfold PRStateMachine.determine_state
  split
  · simp
  split
  · simp
  split
  · simp
  split
  · simp
  split
  · simp
  split
  · simp
  split
  · simp
  split
  · simp
  split
  case isTrue =>
    exfalso
    rename_i hm ho hd hc hp hf hcr happ hb
    simp only [Bool.not_eq_true] at ho hd hc hp hf hcr
    have ho' : pr.is_open = true := by
      cases hob : pr.is_open <;> simp [hob] at ho ⊢
    have hcr' : List.filter (fun r => r.requests_changes) pr.reviews = [] := by
      cases hcrb : (List.filter (fun r => r.requests_changes) pr.reviews).isEmpty
      · simp [hcrb] at hcr
      · simpa [List.isEmpty_iff] using hcrb
    simp [PRInfo.get_blocking_reasons, ho', hd, hc, hp, hf, hcr'] at hb
  split
  · simp
  split
  · simp
  · simp

/-- C2 (amended): an open, non-draft PR with `mergeable` not known-false,
    no conflicts, no reviews, no failed or pending checks, whose
    completed checks all concluded SUCCESS (`PRInfo.checks_passed`),
    derives READY_TO_MERGE. -/
theorem ready_to_merge_when_checks_passed (pr : PRInfo)
    (hopen : pr.is_open = true) (hdraft : pr.is_draft = false)
    (hm : pr.mergeable ≠ some false) (hconf : pr.has_conflicts = false)
    (hrev : pr.reviews = []) (hfail : pr.checks_failed = false)
    (hpend : pr.checks_pending = false) (hpass : pr.checks_passed = true) :
    PRStateMachine.determine_state pr = PRLifecycleState.READY_TO_MERGE := by
  have hstate : pr.state = PRState.OPEN := by simpa [PRInfo.is_open] using hopen
  have hmerged : pr.is_merged = false := by simp [PRInfo.is_merged, hstate]
  have hblock : pr.get_blocking_reasons = [] := by
    simp [PRInfo.get_blocking_reasons, hopen, hdraft, hconf, hpend, hfail, hrev]
  have hne : (pr.mergeable == some false) = false := by
    simpa using hm
  have hcm : pr.can_merge = true := by
    simp [PRInfo.can_merge, hopen, hdraft, hconf, hpass, hpend, bne, hne]
  simp [PRStateMachine.determine_state, hmerged, hopen, hdraft, hconf,
    hpend, hfail, hrev, hblock, hcm]

/-- An open PR whose single check completed with conclusion SKIPPED:
    zero failed and zero pending checks, yet `PRInfo.checks_passed` is
    false because the completed check did not conclude SUCCESS. -/
def skippedCheckExample : PRInfo :=
  { number := 5, title := "t", body := "b", state := PRState.OPEN,
    head_branch := "h", base_branch := "m", url := "u",
    checks := [{ name := "lint", status := CheckStatus.COMPLETED,
                 conclusion := some CheckConclusion.SKIPPED }] }

/-- Counterexample to C2 as stated: this PR is open, not a draft, has
    `mergeable` unknown, no conflicts, no reviews, zero failed and zero
    pending checks, and its check list contains a completed check with
    conclusion SKIPPED — yet the state deriver returns OPEN, not
    READY_TO_MERGE. -/
theorem skipped_check_not_ready_to_merge :
    skippedCheckExample.is_open = true ∧
    skippedCheckExample.is_draft = false ∧
    skippedCheckExample.mergeable = none ∧
    skippedCheckExample.has_conflicts = false ∧
    skippedCheckExample.reviews = [] ∧
    (summarize_checks skippedCheckExample.checks).failed = 0 ∧
    (summarize_checks skippedCheckExample.checks).pending = 0 ∧
    skippedCheckExample.checks_failed = false ∧
    skippedCheckExample.checks_pending = false ∧
    PRStateMachine.determine_state skippedCheckExample =
      PRLifecycleState.OPEN ∧
    (PRStateMachine.determine_state skippedCheckExample ==
      PRLifecycleState.READY_TO_MERGE) = false := by
  decide

/-- An open PR whose single check completed with conclusion SUCCESS. -/
def successCheckExample : PRInfo :=
  { number := 6, title := "t", body := "b", state := PRState.OPEN,
    head_branch := "h", base_branch := "m", url := "u",
    checks := [{ name := "unit", status := CheckStatus.COMPLETED,
                 conclusion := some CheckConclusion.SUCCESS }] }

/-- Witness for the amended C2 at a concrete PR. -/
theorem ready_to_merge_when_checks_passed_witness :
    PRStateMachine.determine_state successCheckExample =
      PRLifecycleState.READY_TO_MERGE :=
  ready_to_merge_when_checks_passed successCheckExample
    (by decide) (by decide) (by decide) (by decide)
    (by decide) (by decide) (by decide) (by decide)

/-- C3: `transition(t)` from state S succeeds iff the static table has
    an entry (S, t); success moves to that entry's target state and
    appends exactly (S, t) to the history; otherwise the call fails with
    an invalid-transition error listing the valid triggers from S, and
    current_state and history are unchanged. -/
theorem transition_iff_table (m : PRStateMachine) (t : String) :
    (m.can_transition t = true ↔
      ∃ e, e ∈ VALID_TRANSITIONS ∧ e.from_state = m.current_state ∧
        e.trigger = t) ∧
    (∀ e, e ∈ VALID_TRANSITIONS → e.from_state = m.current_state →
      e.trigger = t →
      m.transition t =
        (Except.ok e.to_state,
          { m with current_state := e.to_state,
                   history := m.history ++ [(m.current_state, t)] })) ∧
    (m.can_transition t = false →
      m.transition t = (Except.error (m.get_valid_triggers), m)) := by
  refine ⟨?_, ?_, ?_⟩
  · simp only [PRStateMachine.can_transition, List.any_eq_true,
      Bool.and_eq_true, beq_iff_eq]
  · intro e he h1 h2
    cases hfind : VALID_TRANSITIONS.find?
        (fun x => x.from_state == m.current_state && x.trigger == t) with
    | none =>
      exfalso
      have hnone := List.find?_eq_none.mp hfind e he
      simp [h1, h2] at hnone
    | some e2 =>
      have hp2 := List.find?_some hfind
      have hmem2 := List.mem_of_find?_eq_some hfind
      simp only [Bool.and_eq_true, beq_iff_eq] at hp2
      have heq : e2 = e :=
        table_match_unique hmem2 he (hp2.1.trans h1.symm)
          (hp2.2.trans h2.symm)
      subst heq
      simp [PRStateMachine.transition, hfind]
  · intro hcant
    cases hfind : VALID_TRANSITIONS.find?
        (fun x => x.from_state == m.current_state && x.trigger == t) with
    | some e2 =>
      exfalso
      have hp2 := List.find?_some hfind
      have hmem2 := List.mem_of_find?_eq_some hfind
      have hcan : m.can_transition t = true := by
        simp only [PRStateMachine.can_transition, List.any_eq_true]
        exact ⟨e2, hmem2, hp2⟩
      rw [hcan] at hcant
      exact Bool.noConfusion hcant
    | none =>
      simp [PRStateMachine.transition, hfind]

/-- Witness for C3: from CREATED, "publish" moves to OPEN recording the
    history pair, while an unknown trigger fails with the valid triggers
    and leaves the machine unchanged. -/
theorem transition_iff_table_witness :
    PRStateMachine.transition
      { current_state := PRLifecycleState.CREATED, history := [],
        pr_number := none } "publish" =
      (Except.ok PRLifecycleState.OPEN,
        { current_state := PRLifecycleState.OPEN,
          history := [(PRLifecycleState.CREATED, "publish")],
          pr_number := none }) ∧
    PRStateMachine.transition
      { current_state := PRLifecycleState.CREATED, history := [],
        pr_number := none } "bogus" =
      (Except.error (PRStateMachine.get_valid_triggers
        { current_state := PRLifecycleState.CREATED, history := [],
          pr_number := none }),
        { current_state := PRLifecycleState.CREATED, history := [],
          pr_number := none }) :=
  ⟨(transition_iff_table
      { current_state := PRLifecycleState.CREATED, history := [],
        pr_number := none } "publish").2.1
      ⟨PRLifecycleState.CREATED, PRLifecycleState.OPEN, "publish",
        "PR published"⟩ (by decide) rfl rfl,
   (transition_iff_table
      { current_state := PRLifecycleState.CREATED, history := [],
        pr_number := none } "bogus").2.2 (by decide)⟩

/-- Python `check_approval_status` when some review requests changes. -/
lemma check_approval_status_changes {reviews : List ReviewInfo} {N : Nat}
    (h : 0 < reviews.countP (fun r => r.state == ReviewState.CHANGES_REQUESTED)) :
    check_approval_status reviews N =
      (false, "Changes requested by: " ++ String.intercalate ", "
        ((reviews.filter (fun r => r.state == ReviewState.CHANGES_REQUESTED)).map
          (fun r => r.user))) := by
  simp [check_approval_status, summarize_reviews, h]

/-- Python `check_approval_status` when no changes are requested and the quorum
    is met. -/
lemma check_approval_status_met {reviews : List ReviewInfo} {N : Nat}
    (h : reviews.countP (fun r => r.state == ReviewState.CHANGES_REQUESTED) = 0)
    (h2 : N ≤ reviews.countP (fun r => r.state == ReviewState.APPROVED)) :
    check_approval_status reviews N =
      (true, "Approved by "
        ++ toString (reviews.countP (fun r => r.state == ReviewState.APPROVED))
        ++ " reviewer(s)") := by
  simp [check_approval_status, summarize_reviews, h, h2]

/-- Python `check_approval_status` when no changes are requested and approvals
    fall short of the quorum. -/
lemma check_approval_status_short {reviews : List ReviewInfo} {N : Nat}
    (h : reviews.countP (fun r => r.state == ReviewState.CHANGES_REQUESTED) = 0)
    (h2 : reviews.countP (fun r => r.state == ReviewState.APPROVED) < N) :
    check_approval_status reviews N =
      (false, "Need "
        ++ toString (N - reviews.countP (fun r => r.state == ReviewState.APPROVED))
        ++ " more approval(s)") := by
  have h3 : ¬ N ≤ reviews.countP (fun r => r.state == ReviewState.APPROVED) :=
    Nat.not_le.mpr h2
  simp [check_approval_status, summarize_reviews, h, h3]

/-- C4: check_approval_status approves iff no changes-requested review
    exists and the approved count reaches the required quorum N; with
    changes requested it reports the requesting users, and with a short
    quorum it reports that N minus the approved count more approvals are
    needed. -/
theorem check_approval_status_quorum (reviews : List ReviewInfo) (N : Nat) :
    ((check_approval_status reviews N).1 = true ↔
      (reviews.countP (fun r => r.state == ReviewState.CHANGES_REQUESTED) = 0 ∧
       N ≤ reviews.countP (fun r => r.state == ReviewState.APPROVED))) ∧
    (0 < reviews.countP (fun r => r.state == ReviewState.CHANGES_REQUESTED) →
      (check_approval_status reviews N).2 =
        "Changes requested by: " ++ String.intercalate ", "
          ((reviews.filter (fun r => r.state == ReviewState.CHANGES_REQUESTED)).map
            (fun r => r.user))) ∧
    (reviews.countP (fun r => r.state == ReviewState.CHANGES_REQUESTED) = 0 →
      reviews.countP (fun r => r.state == ReviewState.APPROVED) < N →
      (check_approval_status reviews N).2 =
        "Need "
          ++ toString (N - reviews.countP (fun r => r.state == ReviewState.APPROVED))
          ++ " more approval(s)") := by
  refine ⟨?_, ?_, ?_⟩
  · rcases Nat.eq_zero_or_pos
        (reviews.countP (fun r => r.state == ReviewState.CHANGES_REQUESTED)) with
      hcr | hcr
    · rcases Nat.lt_or_ge
          (reviews.countP (fun r => r.state == ReviewState.APPROVED)) N with
        hap | hap
      · rw [check_approval_status_short hcr hap]
        constructor
        · intro hfalse; exact Bool.noConfusion hfalse
        · rintro ⟨-, hle⟩; exact absurd hle (by omega)
      · rw [check_approval_status_met hcr hap]
        simp [hcr, hap]
    · rw [check_approval_status_changes hcr]
      constructor
      · intro hfalse; exact Bool.noConfusion hfalse
      · rintro ⟨h0, -⟩; exact absurd h0 (by omega)
  · intro hcr
    rw [check_approval_status_changes hcr]
  · intro hcr hap
    rw [check_approval_status_short hcr hap]

/-- Witness for C4: one approval plus one changes-requested review with
    N = 1 is not approved, naming the requester; a lone comment with
    N = 2 reports two missing approvals; two approvals with N = 1 is
    approved. -/
theorem check_approval_status_quorum_witness :
    (check_approval_status
      [⟨"alice", ReviewState.APPROVED, none, none⟩,
       ⟨"bob", ReviewState.CHANGES_REQUESTED, none, none⟩] 1).2 =
      "Changes requested by: bob" ∧
    (check_approval_status
      [⟨"carol", ReviewState.COMMENTED, none, none⟩] 2).2 =
      "Need 2 more approval(s)" ∧
    ((check_approval_status
      [⟨"alice", ReviewState.APPROVED, none, none⟩,
       ⟨"dave", ReviewState.APPROVED, none, none⟩] 1).1 = true) :=
  ⟨(check_approval_status_quorum
      [⟨"alice", ReviewState.APPROVED, none, none⟩,
       ⟨"bob", ReviewState.CHANGES_REQUESTED, none, none⟩] 1).2.1
      (by decide),
   (check_approval_status_quorum
      [⟨"carol", ReviewState.COMMENTED, none, none⟩] 2).2.2
      (by decide) (by decide),
   (check_approval_status_quorum
      [⟨"alice", ReviewState.APPROVED, none, none⟩,
       ⟨"dave", ReviewState.APPROVED, none, none⟩] 1).1.mpr
      ⟨by decide, by decide⟩⟩

/-- C5: categorize_failures partitions exactly the failed checks: a
    check is in the flaky list iff it is a failed member whose lowercased
    name contains one of the flaky patterns, and in the blocking list iff
    it is a failed member whose name does not; no non-failed check
    appears in either list. -/
theorem categorize_failures_partition (checks : List CheckInfo) (c : CheckInfo) :
    (c ∈ (categorize_failures checks).1 ↔
      c ∈ checks ∧ c.is_failed = true ∧ flakyName c.name = true) ∧
    (c ∈ (categorize_failures checks).2 ↔
      c ∈ checks ∧ c.is_failed = true ∧ flakyName c.name = false) := by
  have hcont : ∀ (l : List CheckInfo) (x : CheckInfo),
      l.contains x = true ↔ x ∈ l := fun l x => List.elem_iff
  constructor
  · simp [categorize_failures, List.mem_filter, is_flaky, and_assoc]
    tauto
  · simp only [categorize_failures, List.mem_filter, Bool.not_eq_true']
    constructor
    · rintro ⟨⟨hcm, hcf⟩, hnc⟩
      refine ⟨hcm, hcf, ?_⟩
      cases hfl : flakyName c.name with
      | false => rfl
      | true =>
        exfalso
        have hmem : c ∈ (checks.filter (fun x => x.is_failed)).filter
            (fun x => is_flaky x) :=
          List.mem_filter.mpr
            ⟨List.mem_filter.mpr ⟨hcm, hcf⟩, by simp [is_flaky, hfl]⟩
        rw [(hcont _ c).mpr hmem] at hnc
        exact Bool.noConfusion hnc
    · rintro ⟨hcm, hcf, hfl⟩
      refine ⟨⟨hcm, hcf⟩, ?_⟩
      cases hcb : ((checks.filter (fun x => x.is_failed)).filter
          (fun x => is_flaky x)).contains c with
      | false => rfl
      | true =>
        exfalso
        have hmem := (hcont _ c).mp hcb
        have := (List.mem_filter.mp hmem).2
        simp [is_flaky, hfl] at this

/-- C8: when the check wait ends with a pending check still in the final
    summary, wait_for_pr_checks raises ChecksPendingError carrying the
    pending check names; and ChecksFailedError arises only when checks
    have completed (pending = 0) with failures, carrying the failed
    names — the two error kinds are distinct constructors. -/
theorem wait_pending_error_distinct (checks : List CheckInfo)
    (action : String) (retryOk : Bool) :
    ((summarize_checks checks).pending > 0 →
      wait_for_pr_checks_step checks action retryOk =
        WaitStepResult.checksPendingError (pendingNames checks)) ∧
    (∀ names, wait_for_pr_checks_step checks action retryOk =
        WaitStepResult.checksFailedError names →
      (summarize_checks checks).pending = 0 ∧
      0 < (summarize_checks checks).failed ∧
      names = failedNames checks) := by
  constructor
  · intro h
    have hap : (summarize_checks checks).all_passed = false := by
      simp only [CheckSummary.all_passed, Bool.and_eq_false_iff, beq_eq_false_iff_ne]
      right
      omega
    simp [wait_for_pr_checks_step, hap, h]
  · intro names h
    simp only [wait_for_pr_checks_step] at h
    split at h
    · exact WaitStepResult.noConfusion h
    · split at h
      · exact WaitStepResult.noConfusion h
      · split at h
        · split at h
          · exact WaitStepResult.noConfusion h
          · rename_i hap hpend hretry hro
            injection h with hnames
            have hp0 : (summarize_checks checks).pending = 0 :=
              Nat.eq_zero_of_not_pos hpend
            have hfail : (summarize_checks checks).failed ≠ 0 := by
              intro h0
              exact hap (by simp [CheckSummary.all_passed, h0, hp0])
            exact ⟨hp0, Nat.pos_of_ne_zero hfail, hnames.symm⟩
        · split at h
          · exact WaitStepResult.noConfusion h
          · split at h
            · exact WaitStepResult.noConfusion h
            · rename_i hap hpend hretry hig hw
              injection h with hnames
              have hp0 : (summarize_checks checks).pending = 0 :=
                Nat.eq_zero_of_not_pos hpend
              have hfail : (summarize_checks checks).failed ≠ 0 := by
                intro h0
                exact hap (by simp [CheckSummary.all_passed, h0, hp0])
              exact ⟨hp0, Nat.pos_of_ne_zero hfail, hnames.symm⟩

/-- A check list with one queued (pending) check. -/
def pendingChecksExample : List CheckInfo :=
  [{ name := "ci", status := CheckStatus.QUEUED }]

/-- A check list with one completed failed check. -/
def failedChecksExample : List CheckInfo :=
  [{ name := "build", status := CheckStatus.COMPLETED,
     conclusion := some CheckConclusion.FAILURE }]

/-- Witness for C8 at concrete check lists. -/
theorem wait_pending_error_distinct_witness :
    wait_for_pr_checks_step pendingChecksExample "abort" false =
      WaitStepResult.checksPendingError ["ci"] ∧
    ((summarize_checks failedChecksExample).pending = 0 ∧
     0 < (summarize_checks failedChecksExample).failed ∧
     ["build"] = failedNames failedChecksExample) :=
  ⟨(wait_pending_error_distinct pendingChecksExample "abort" false).1
      (by decide),
   (wait_pending_error_distinct failedChecksExample "abort" false).2
      ["build"] (by decide)⟩

end AutoPR
